import Mathlib

set_option maxHeartbeats 1000000

namespace BettingEdge

/-!
Shallow embedding of the `betting_edge` repository core:
`data_agent.py` (canonical store, ingestion, queries),
`pipelines/pipeline.py` (orchestrator `run` / `run_deep_analysis`),
and the reasoning-capability wrappers in `agent_modules/`.

SQLite conventions modelled here:
* each table is a Lean list of row structures; `INSERT OR REPLACE`
  on a table whose only uniqueness constraint is the `INTEGER PRIMARY KEY`
  deletes the conflicting row (same key) and appends the new one;
  on a table whose primary key is an AUTOINCREMENT surrogate and which has
  no other uniqueness constraint, it can never conflict, so it appends;
* `LIKE` with a pattern containing no wildcard is ASCII-case-insensitive
  string equality;
* `ORDER BY <text column> DESC` sorts by byte order of the text, descending;
* Python dict access `d['k']` on a missing key is a `KeyError`, modelled by
  `Option`-typed fields threaded through `Except`.
-/

/-- Python `str.lower` / SQLite ASCII case folding on one character. -/
def pyLowerChar (c : Char) : Char := c.toLower

/-- A string as its case-folded character list (Python `s.lower()` before a
substring test, and the folding SQLite `LIKE` applies to both operands). -/
def pyLower (s : String) : List Char := s.data.map pyLowerChar

/-- SQLite `LIKE` for the wildcard-free patterns used in `data_agent.py`:
case-insensitive equality of the pattern and the value. -/
def sqlLike (pat s : String) : Bool := pyLower pat == pyLower s

/-- Python list/str prefix test: does `p` start `l`? -/
def pyStartsWith : List Char → List Char → Bool
  | [], _ => true
  | _ :: _, [] => false
  | a :: as, b :: bs => a == b && pyStartsWith as bs

/-- Python `needle in haystack` on strings (already case-folded): substring
containment, by sliding a prefix test over the haystack. -/
def pyContains (needle : List Char) : List Char → Bool
  | [] => needle.isEmpty
  | c :: rest => pyStartsWith needle (c :: rest) || pyContains needle rest

/-- Byte-order comparison of two character lists, as SQLite BINARY collation
compares TEXT values (UTF-8 byte order agrees with code-point order). -/
def charsLe : List Char → List Char → Bool
  | [], _ => true
  | _ :: _, [] => false
  | a :: as, b :: bs =>
    if a.toNat < b.toNat then true
    else if b.toNat < a.toNat then false
    else charsLe as bs

/-- Python `str.strip()`: drop leading and trailing whitespace. -/
def pyStrip (s : String) : String :=
  String.mk (((s.data.dropWhile Char.isWhitespace).reverse.dropWhile
    Char.isWhitespace).reverse)

/-- Python `str.rstrip(chr)` specialised to `'%'` as used in `store_stats`. -/
def rstripPercent (s : String) : String :=
  String.mk ((s.data.reverse.dropWhile (fun c => c == Char.ofNat 37)).reverse)

/-- A single-quote character as a string (used in pipeline messages). -/
def sq : String := String.singleton (Char.ofNat 39)

/-! ## Canonical store rows (schema from `DataAgent._init_database`) -/

/-- One row of the `matches` table (`match_id INTEGER PRIMARY KEY`). -/
structure MatchRow where
  match_id : Int
  sport_type : String
  league_id : Int
  league_name : String
  season : Int
  match_date : String
  home_team_id : Int
  home_team_name : String
  away_team_id : Int
  away_team_name : String
  home_score : Option Int
  away_score : Option Int
  status : String
  venue : String
  last_updated : String
deriving Repr, DecidableEq

/-- A value held in a provider statistics dict: JSON int, string or null. -/
inductive SVal where
  | i (n : Int)
  | s (st : String)
  | null
deriving Repr, DecidableEq

/-- Python `str(v)` on the statistic values that can occur. -/
def pyStr : SVal → String
  | .i n => toString n
  | .s st => st
  | .null => "None"

/-- One row of the `match_stats` table. Its primary key is the surrogate
`stat_id INTEGER PRIMARY KEY AUTOINCREMENT`; the schema declares no
uniqueness constraint on `(match_id, team_id)`. -/
structure StatsRow where
  stat_id : Nat
  match_id : Int
  team_id : Int
  team_name : String
  shots_on_goal : SVal
  shots_off_goal : SVal
  total_shots : SVal
  blocked_shots : SVal
  shots_inside_box : SVal
  shots_outside_box : SVal
  fouls : SVal
  corner_kicks : SVal
  offsides : SVal
  ball_possession : String
  yellow_cards : SVal
  red_cards : SVal
  goalkeeper_saves : SVal
  total_passes : SVal
  passes_accurate : SVal
  passes_percentage : String
  last_updated : String
deriving Repr, DecidableEq

/-- One row of the `odds` table (`odds_id` AUTOINCREMENT surrogate key). -/
structure OddsRow where
  odds_id : Nat
  match_id : Int
  bookmaker : String
  bet_type : String
  home_odds : Option ℚ
  draw_odds : Option ℚ
  away_odds : Option ℚ
  last_updated : String
deriving Repr, DecidableEq

/-- The SQLite database state (tables used by the modelled operations;
`team_form` and `user_profiles` are not touched by any claim). `matchRows`
is the `matches` table (`matches` is a reserved word in Lean). The
`nextStatId` / `nextOddsId` counters model the AUTOINCREMENT rowids. -/
structure DB where
  matchRows : List MatchRow
  match_stats : List StatsRow
  odds : List OddsRow
  nextStatId : Nat
  nextOddsId : Nat
deriving Repr, DecidableEq

/-- The freshly initialised database. -/
def DB.empty : DB := ⟨[], [], [], 1, 1⟩

/-! ## Raw provider records (the nested dicts `store_match` consumes) -/

/-- `fixture['status']` sub-dict; a missing `'long'` key is a `KeyError`. -/
structure RawStatus where
  long : Option String
deriving Repr, DecidableEq

/-- `fixture['venue']` sub-dict. -/
structure RawVenue where
  name : Option String
deriving Repr, DecidableEq

/-- The `'fixture'` sub-dict of a provider match record. `Option` marks keys
that may be absent (absence raises `KeyError` in `store_match`). -/
structure RawFixture where
  id : Option Int
  date : Option String
  status : Option RawStatus
  venue : Option RawVenue
deriving Repr, DecidableEq

/-- One side of the `'teams'` sub-dict. -/
structure RawTeam where
  id : Option Int
  name : Option String
deriving Repr, DecidableEq

/-- The `'teams'` sub-dict. -/
structure RawTeams where
  home : Option RawTeam
  away : Option RawTeam
deriving Repr, DecidableEq

/-- The `'league'` sub-dict. -/
structure RawLeague where
  id : Option Int
  name : Option String
  season : Option Int
deriving Repr, DecidableEq

/-- The `'goals'` sub-dict. The outer `Option` is key presence; the inner
`Option Int` is the nullable score (null until the game is played, distinct
from integer 0). -/
structure RawGoals where
  home : Option (Option Int)
  away : Option (Option Int)
deriving Repr, DecidableEq

/-- A provider match record as passed to `store_match` (a nested dict). -/
structure RawMatch where
  fixture : Option RawFixture
  league : Option RawLeague
  teams : Option RawTeams
  goals : Option RawGoals
deriving Repr, DecidableEq

/-- Python dict access `d['k']`: the value, or a `KeyError`. -/
def keyGet {α : Type} (o : Option α) (k : String) : Except String α :=
  match o with
  | some v => Except.ok v
  | none => Except.error ("KeyError: " ++ k)

/-- The field extraction performed by `DataAgent.store_match` before the SQL
insert: every dict subscript in source order, producing the `matches` row
(`sport_type` is `self.sport_type`; `now` is `datetime.now().isoformat()`). -/
def extractMatchRow (raw : RawMatch) (sportType now : String) :
    Except String MatchRow := do
  let fixture ← keyGet raw.fixture "fixture"
  let league ← keyGet raw.league "league"
  let teams ← keyGet raw.teams "teams"
  let goals ← keyGet raw.goals "goals"
  let fid ← keyGet fixture.id "id"
  let lid ← keyGet league.id "id"
  let lname ← keyGet league.name "name"
  let lseason ← keyGet league.season "season"
  let fdate ← keyGet fixture.date "date"
  let home ← keyGet teams.home "home"
  let away ← keyGet teams.away "away"
  let hid ← keyGet home.id "id"
  let hname ← keyGet home.name "name"
  let aid ← keyGet away.id "id"
  let aname ← keyGet away.name "name"
  let ghome ← keyGet goals.home "home"
  let gaway ← keyGet goals.away "away"
  let fstatus ← keyGet fixture.status "status"
  let slong ← keyGet fstatus.long "long"
  let fvenue ← keyGet fixture.venue "venue"
  let vname ← keyGet fvenue.name "name"
  return {
    match_id := fid
    sport_type := sportType
    league_id := lid
    league_name := lname
    season := lseason
    match_date := fdate
    home_team_id := hid
    home_team_name := hname
    away_team_id := aid
    away_team_name := aname
    home_score := ghome
    away_score := gaway
    status := slong
    venue := vname
    last_updated := now }

/-- `INSERT OR REPLACE INTO matches`: the conflicting row (same
`match_id` primary key) is deleted and the new row inserted. -/
def insertOrReplaceMatch (db : DB) (row : MatchRow) : DB :=
  { db with matchRows :=
      db.matchRows.filter (fun r => !(r.match_id == row.match_id)) ++ [row] }

/-- Outcome of `DataAgent.store_match`: the database after the call, whether
an exception escaped to the caller, and the error text printed (with the
failing payload) by the `except` branch, if any. -/
structure StoreMatchResult where
  db : DB
  raised : Bool
  logged : Option String
deriving Repr, DecidableEq

/-- `DataAgent.store_match`: extract the nested fields, `INSERT OR REPLACE`
the row and commit; on any exception, print the error and the payload,
roll the transaction back (store unchanged) and return normally — the
`except Exception` branch never re-raises. -/
def store_match (db : DB) (raw : RawMatch) (sportType now : String) :
    StoreMatchResult :=
  match extractMatchRow raw sportType now with
  | Except.ok row => ⟨insertOrReplaceMatch db row, false, none⟩
  | Except.error e => ⟨db, false, some e⟩

/-! ## `store_stats` (team statistics ingestion) -/

/-- One element of the `stats_data` list handed to `store_stats`: the
`'team'` sub-dict and the `'statistics'` list of `{'type', 'value'}` pairs. -/
structure RawTeamStats where
  team_id : Int
  team_name : String
  statistics : List (String × SVal)
deriving Repr, DecidableEq

/-- The dict comprehension `{s['type']: s['value'] for s in statistics}`:
later entries with the same key overwrite earlier ones. -/
def buildStatsDict (l : List (String × SVal)) : List (String × SVal) :=
  l.foldl (fun d kv =>
    d.filter (fun kv2 => !(kv2.1 == kv.1)) ++ [kv]) []

/-- Python `dict.get(k, default)`. -/
def dictGet (d : List (String × SVal)) (k : String) (dflt : SVal) : SVal :=
  match d.find? (fun kv => kv.1 == k) with
  | some kv => kv.2
  | none => dflt

/-- The row `store_stats` builds for one team (fresh AUTOINCREMENT
`stat_id`; every value read from the dict with default `0`, the two
percentage fields stringified and `'%'`-stripped). -/
def mkStatsRow (sid : Nat) (mid : Int) (ts : RawTeamStats) (now : String) :
    StatsRow :=
  let d := buildStatsDict ts.statistics
  { stat_id := sid
    match_id := mid
    team_id := ts.team_id
    team_name := ts.team_name
    shots_on_goal := dictGet d "Shots on Goal" (.i 0)
    shots_off_goal := dictGet d "Shots off Goal" (.i 0)
    total_shots := dictGet d "Total Shots" (.i 0)
    blocked_shots := dictGet d "Blocked Shots" (.i 0)
    shots_inside_box := dictGet d "Shots insidebox" (.i 0)
    shots_outside_box := dictGet d "Shots outsidebox" (.i 0)
    fouls := dictGet d "Fouls" (.i 0)
    corner_kicks := dictGet d "Corner Kicks" (.i 0)
    offsides := dictGet d "Offsides" (.i 0)
    ball_possession := rstripPercent (pyStr (dictGet d "Ball Possession" (.s "0%")))
    yellow_cards := dictGet d "Yellow Cards" (.i 0)
    red_cards := dictGet d "Red Cards" (.i 0)
    goalkeeper_saves := dictGet d "Goalkeeper Saves" (.i 0)
    total_passes := dictGet d "Total passes" (.i 0)
    passes_accurate := dictGet d "Passes accurate" (.i 0)
    passes_percentage := rstripPercent (pyStr (dictGet d "Passes %" (.s "0%")))
    last_updated := now }

/-- `DataAgent.store_stats`: for each team block, `INSERT OR REPLACE INTO
match_stats`. Because the table's only uniqueness constraint is the
AUTOINCREMENT surrogate `stat_id` (no unique index on
`(match_id, team_id)`), the insert can never conflict with an existing row,
so each call appends a fresh row. -/
def store_stats (db : DB) (mid : Int) (data : List RawTeamStats)
    (now : String) : DB :=
  data.foldl (fun d ts =>
    { d with
      match_stats := d.match_stats ++ [mkStatsRow d.nextStatId mid ts now]
      nextStatId := d.nextStatId + 1 }) db

/-! ## `get_recent_matches` (recent-events query) -/

/-- The WHERE clause of `get_recent_matches` with SQL operator precedence:
`AND` binds tighter than `OR`, so the clause
`(home = t OR away = t) AND status LIKE 'Match Finished'
 OR status LIKE 'completed'`
parses as
`((home = t OR away = t) AND status LIKE 'Match Finished')
 OR (status LIKE 'completed')`. -/
def recentWhere (teamId : Int) (r : MatchRow) : Bool :=
  ((r.home_team_id == teamId || r.away_team_id == teamId) &&
    sqlLike "Match Finished" r.status) || sqlLike "completed" r.status

/-- Rows ordered by `match_date` descending (`ORDER BY match_date DESC`):
a stable insertion sort under the byte-order comparison on the date text. -/
def insertByDateDesc (r : MatchRow) : List MatchRow → List MatchRow
  | [] => [r]
  | x :: xs =>
      if charsLe x.match_date.data r.match_date.data then r :: x :: xs
      else x :: insertByDateDesc r xs

/-- Sort by `match_date` descending. -/
def sortByDateDesc : List MatchRow → List MatchRow
  | [] => []
  | x :: xs => insertByDateDesc x (sortByDateDesc xs)

/-- `DataAgent.get_recent_matches`: filter by the WHERE clause, order by
`match_date` descending, bound by `LIMIT`. -/
def get_recent_matches (db : DB) (teamId : Int) (limit : Nat) :
    List MatchRow :=
  (sortByDateDesc (db.matchRows.filter (recentWhere teamId))).take limit

/-! ## College adapter conversion (`DataAgent._fetch_college_data`) -/

/-- One raw game object from the college data API; `Option` fields model
`game.get(...)` returning `None` when the key is absent (for `homePoints`
and `awayPoints` an explicit JSON null is indistinguishable from absence,
both store NULL). -/
structure RawCollegeGame where
  id : Option Int
  startDate : Option String
  completed : Option Bool
  venue : Option String
  homeId : Option Int
  homeTeam : Option String
  awayId : Option Int
  awayTeam : Option String
  season : Option Int
  homePoints : Option Int
  awayPoints : Option Int
deriving Repr, DecidableEq

/-- Python truthiness of `game.get('completed')`. -/
def completedTruthy (g : RawCollegeGame) : Bool := g.completed == some true

/-- The status string the college converter writes:
`'completed' if game.get('completed') else 'scheduled'`. -/
def collegeStatus (g : RawCollegeGame) : String :=
  if completedTruthy g then "completed" else "scheduled"

/-- Python `a or b` for an optional string (`None` and `''` are falsy). -/
def pyOrStr (o : Option String) (dflt : String) : String :=
  match o with
  | some s => if s == "" then dflt else s
  | none => dflt

/-- The canonical-shaped record `_fetch_college_data` builds for one game
(the dict literal at lines 255-281 of `data_agent.py`). -/
def convertCollegeGame (sportType : String) (year : Int)
    (g : RawCollegeGame) : RawMatch :=
  { fixture := some
      { id := some (g.id.getD 0)
        date := some (g.startDate.getD "")
        status := some { long := some (collegeStatus g) }
        venue := some { name := some (pyOrStr g.venue "TBD") } }
    league := some
      { id := some 0
        name := some (if sportType == "college_football" then
          "College Football" else "College Basketball")
        season := some (g.season.getD year) }
    teams := some
      { home := some { id := some (g.homeId.getD 0)
                       name := some (g.homeTeam.getD "TBD") }
        away := some { id := some (g.awayId.getD 0)
                       name := some (g.awayTeam.getD "TBD") } }
    goals := some
      { home := some g.homePoints
        away := some g.awayPoints } }

/-! ## Pipeline orchestrator (`pipelines/pipeline.py`) -/

/-- The Query Interpreter's structured output (`SportsDataQuery` in
`query_agent.py`): sport, optional team filter, optional competition code,
mandatory season year. -/
structure Intent where
  sport_type : String
  team_name : Option String
  competition_code : Option String
  season : Int
deriving Repr, DecidableEq

/-- A minimal JSON value (what `json.loads` yields and the odds payload the
pipeline passes through opaquely). -/
inductive Json where
  | null
  | bool (b : Bool)
  | num (q : ℚ)
  | str (s : String)
  | arr (elems : List Json)
  | obj (fields : List (String × Json))

/-- One fetched match as the pipeline's filter stage reads it: the
`m.get("teams", {}).get("home", {}).get("name", "")` chain collapses to an
optional name whose absence at any level yields `""`; `fixture_id` is the
`m['fixture']['id']` the deep-analysis stage keys on. -/
structure FetchedMatch where
  fixture_id : Int
  home_name : Option String
  away_name : Option String
deriving Repr, DecidableEq

/-- The effective team name the filter compares against (`""` when any
level of the dict chain is missing). -/
def effName (o : Option String) : String := o.getD ""

/-- `target_team = structured.team_name.lower() if structured.team_name
else None` — `None` and the empty string are both falsy. -/
def targetOf (teamName : Option String) : Option (List Char) :=
  match teamName with
  | none => none
  | some s => if s == "" then none else some (pyLower s)

/-- The filter-loop condition: keep the match when no target team is set,
or when the lowered target occurs in the lowered home or away name. -/
def keepMatch (target : Option (List Char)) (m : FetchedMatch) : Bool :=
  match target with
  | none => true
  | some t =>
      pyContains t (pyLower (effName m.home_name)) ||
      pyContains t (pyLower (effName m.away_name))

/-- The `all_filtered_matches` list `run` builds from the fetched matches. -/
def runFiltered (s : Intent) (fetched : List FetchedMatch) :
    List FetchedMatch :=
  fetched.filter (keepMatch (targetOf s.team_name))

/-- Python `f"{x}"` on the optional team name used in the no-match message. -/
def pyShowOpt : Option String → String
  | none => "None"
  | some s => s

/-- The `PipelineResultEnvelope` returned by `BettingEdgePipeline.run`: a
tagged variant carrying exactly the payload fields of the dict literals in
the source. -/
inductive Envelope where
  | query_error (message : String)
  | no_matches (request : Intent) (odds : Json) (message : String)
  | ok (query : String) (structured_query : Intent)
      (filtered_matches : List FetchedMatch) (odds : Json) (message : String)

/-- `BettingEdgePipeline.run`. The opaque external calls are parameters:
`parsed` is the query agent's result (`None` on parse failure), `oddsData`
the odds agent's payload, `fetched` the data agent's match list. The
database is threaded to expose the store writes `run` performs; no branch
of the source touches the store, so every branch returns it unchanged. -/
def run (userQuery : String) (parsed : Option Intent) (oddsData : Json)
    (fetched : List FetchedMatch) (db : DB) : Envelope × DB :=
  match parsed with
  | none => (Envelope.query_error "Query agent could not parse that request", db)
  | some s =>
    if fetched.isEmpty then
      (Envelope.no_matches s oddsData "No matching results from data agent", db)
    else
      let filtered := runFiltered s fetched
      if filtered.isEmpty then
        (Envelope.no_matches s oddsData
          ("No matches found involving " ++ sq ++ pyShowOpt s.team_name ++ sq
            ++ " after filtering."), db)
      else
        (Envelope.ok userQuery s filtered oddsData
          ("Found " ++ toString filtered.length ++
            " matches. Select one for detailed analysis."), db)

/-! ## Reasoning-capability wrappers (`agent_modules/*.py`)

Each wrapper calls an LLM and then post-processes its reply. The reply is
opaque; what each `invoke` does with it is fully determined by the parse
outcome, so the model takes the `json.loads` result directly: `some j` when
the reply parsed to the JSON value `j`, `none` when `json.loads` raised and
the bare `except` took the fallback branch. -/

/-- `PredictionAgentLC.invoke` after the LLM call: the parsed JSON, or the
fallback probability triple when parsing failed. -/
def predictionInvoke (parsed : Option Json) : Json :=
  match parsed with
  | some j => j
  | none => Json.obj
      [("home_win_prob", Json.num (40/100)),
       ("draw_prob", Json.num (30/100)),
       ("away_win_prob", Json.num (30/100))]

/-- `VerificationAgentLC.invoke` after the LLM call: the parsed JSON, or
the fallback edge/confidence object when parsing failed. -/
def verificationInvoke (parsed : Option Json) : Json :=
  match parsed with
  | some j => j
  | none => Json.obj
      [("value_edge", Json.str "Low"), ("confidence", Json.str "Medium")]

/-- `EthicsAgentLC.invoke` after the LLM call: the parsed JSON, or the
fallback pass status when parsing failed. -/
def ethicsInvoke (parsed : Option Json) : Json :=
  match parsed with
  | some j => j
  | none => Json.obj [("status", Json.str "pass")]

/-- The closed action list of `BehaviorAgentLC.invoke`. -/
def allowedActions : List String :=
  ["neutral", "safe", "value", "high_risk", "summary", "explain"]

/-- `BehaviorAgentLC.invoke`: strip the LLM reply; if the stripped action
is not in the allowed list return `"neutral"`, else return it. -/
def behaviorInvoke (reply : String) : String :=
  let action := pyStrip reply
  if allowedActions.contains action then action else "neutral"

/-! ## Context Assembler -/

/-- The consolidated bundle the recommendation stage consumes; `none`
models an empty `{}` sub-object. All three top-level keys are always
present (the structure is total). -/
structure ContextBundle where
  match_details : Option MatchRow
  home_team_stats : Option StatsRow
  latest_odds : Option OddsRow
deriving Repr, DecidableEq

/-- The latest odds row among `rows`: the one with the greatest
`last_updated`, or `none` when the list is empty. -/
def latestOddsRow (rows : List OddsRow) : Option OddsRow :=
  rows.foldl (fun acc r =>
    match acc with
    | none => some r
    | some a =>
        if charsLe a.last_updated.data r.last_updated.data then some r
        else some a) none

/-- Modelled from the spec: `DataAgent.get_full_match_context` is invoked
by `RecommendationAgentLC.invoke` (the recommendation stage's SQL-RAG
call) but its definition is not among the source files. Per spec §4.3 the
Context Assembler, given one event id, returns one consolidated bundle
`{match_details, home_team_stats, latest_odds}` whose three lookups are
independently optional: a missing event row, statistics row or odds row
yields an empty sub-object, never an error; the focal team is the event's
home team; the latest odds is the most recent quote for the event. -/
def get_full_match_context (db : DB) (matchId : Int) : ContextBundle :=
  let md := db.matchRows.find? (fun r => r.match_id == matchId)
  { match_details := md
    home_team_stats := md.bind (fun r =>
      db.match_stats.find? (fun s =>
        s.match_id == matchId && s.team_id == r.home_team_id))
    latest_odds :=
      latestOddsRow (db.odds.filter (fun o => o.match_id == matchId)) }

/-! ## Spec-side predicate and concrete inputs used by the theorems -/

/-- The spec's filter criterion: the intent's team name occurs in the home
or away team name as a case-insensitive substring. -/
def specTeamMatch (t : String) (m : FetchedMatch) : Prop :=
  pyLower t <:+: pyLower (effName m.home_name) ∨
  pyLower t <:+: pyLower (effName m.away_name)

instance (t : String) (m : FetchedMatch) : Decidable (specTeamMatch t m) := by
  unfold specTeamMatch
  infer_instance

/-- The row `store_match` produces for a college game record: every key of
`convertCollegeGame`'s record is present, so extraction succeeds with
exactly this row. -/
def collegeRow (sportType now : String) (year : Int) (g : RawCollegeGame) :
    MatchRow :=
  { match_id := g.id.getD 0
    sport_type := sportType
    league_id := 0
    league_name := if sportType == "college_football" then
      "College Football" else "College Basketball"
    season := g.season.getD year
    match_date := g.startDate.getD ""
    home_team_id := g.homeId.getD 0
    home_team_name := g.homeTeam.getD "TBD"
    away_team_id := g.awayId.getD 0
    away_team_name := g.awayTeam.getD "TBD"
    home_score := g.homePoints
    away_score := g.awayPoints
    status := collegeStatus g
    venue := pyOrStr g.venue "TBD"
    last_updated := now }

/-- A stored finished-like row not involving team 99 (for the
`get_recent_matches` WHERE-clause precedence bug). -/
def rowLeak : MatchRow :=
  { match_id := 1, sport_type := "college_football", league_id := 0,
    league_name := "College Football", season := 2024,
    match_date := "2024-09-01", home_team_id := 10,
    home_team_name := "Alabama", away_team_id := 20,
    away_team_name := "Georgia", home_score := some 21,
    away_score := some 14, status := "completed", venue := "Stadium",
    last_updated := "t0" }

/-- A store holding only `rowLeak`. -/
def dbLeak : DB := { DB.empty with matchRows := [rowLeak] }

/-- A college game record marked completed by the provider. -/
def gameCompleted : RawCollegeGame :=
  { id := some 3, startDate := some "2024-09-01", completed := some true,
    venue := some "Stadium", homeId := some 10, homeTeam := some "Alabama",
    awayId := some 20, awayTeam := some "Georgia", season := some 2024,
    homePoints := some 21, awayPoints := some 14 }

/-- One team's statistics block, as handed to `store_stats`. -/
def tsArsenal : RawTeamStats :=
  ⟨7, "Arsenal", [("Fouls", .i 10), ("Ball Possession", .s "55%")]⟩

/-- A well-formed provider match record (every key present). -/
def rawWellFormed : RawMatch :=
  { fixture := some
      { id := some 7, date := some "2024-08-01",
        status := some { long := some "Match Finished" },
        venue := some { name := some "Anfield" } }
    league := some
      { id := some 39, name := some "Premier League", season := some 2024 }
    teams := some
      { home := some { id := some 40, name := some "Liverpool" },
        away := some { id := some 42, name := some "Arsenal" } }
    goals := some { home := some (some 2), away := some (some 0) } }

/-- A second ingestion of the same fixture with updated mutable fields. -/
def rawWellFormed2 : RawMatch :=
  { fixture := some
      { id := some 7, date := some "2024-08-01",
        status := some { long := some "Match Finished" },
        venue := some { name := some "Anfield" } }
    league := some
      { id := some 39, name := some "Premier League", season := some 2024 }
    teams := some
      { home := some { id := some 40, name := some "Liverpool" },
        away := some { id := some 42, name := some "Arsenal" } }
    goals := some { home := some (some 3), away := some (some 1) } }

/-- The row the first ingestion of fixture 7 produces. -/
def rowFirst : MatchRow :=
  { match_id := 7, sport_type := "football", league_id := 39,
    league_name := "Premier League", season := 2024,
    match_date := "2024-08-01", home_team_id := 40,
    home_team_name := "Liverpool", away_team_id := 42,
    away_team_name := "Arsenal", home_score := some 2,
    away_score := some 0, status := "Match Finished", venue := "Anfield",
    last_updated := "t1" }

/-- The row the second ingestion of fixture 7 produces. -/
def rowSecond : MatchRow :=
  { match_id := 7, sport_type := "football", league_id := 39,
    league_name := "Premier League", season := 2024,
    match_date := "2024-08-01", home_team_id := 40,
    home_team_name := "Liverpool", away_team_id := 42,
    away_team_name := "Arsenal", home_score := some 3,
    away_score := some 1, status := "Match Finished", venue := "Anfield",
    last_updated := "t2" }

/-- A malformed provider record: the `'fixture'` key is missing, so the
first dict access in `store_match` raises `KeyError`. -/
def rawMalformed : RawMatch :=
  { fixture := none, league := none, teams := none, goals := none }

/-- The spec's first candidate event (home Liverpool, away Arsenal). -/
def evLiv : FetchedMatch := ⟨101, some "Liverpool", some "Arsenal"⟩

/-- The spec's second candidate event (home Chelsea, away Everton). -/
def evChe : FetchedMatch := ⟨102, some "Chelsea", some "Everton"⟩

/-- A structured intent filtering for team `"liverpool"`. -/
def intentLiv : Intent := ⟨"football", some "liverpool", some "PL", 2024⟩

/-- A structured intent with no team filter. -/
def intentNoTeam : Intent := ⟨"college_football", none, none, 2024⟩

/-- A retrieved college event (used to exercise the persist stage). -/
def evCollege : FetchedMatch := ⟨42, some "Alabama", some "Georgia"⟩

/-! ## Helper lemmas -/

theorem pyStartsWith_iff (p l : List Char) :
    pyStartsWith p l = true ↔ p <+: l := by
  induction p generalizing l with
  | nil => simp [pyStartsWith]
  | cons a as ih =>
    cases l with
    | nil => simp [pyStartsWith]
    | cons b bs => simp [pyStartsWith, ih, List.cons_prefix_cons]

theorem pyContains_iff (n h : List Char) :
    pyContains n h = true ↔ n <:+: h := by
  induction h with
  | nil => simp [pyContains, List.isEmpty_iff, List.infix_nil]
  | cons c cs ih =>
    simp [pyContains, pyStartsWith_iff, ih, List.infix_cons_iff]

theorem keepMatch_eq_specTeamMatch (t : String) (m : FetchedMatch) :
    keepMatch (some (pyLower t)) m = decide (specTeamMatch t m) := by
  rw [Bool.eq_iff_iff]
  simp [keepMatch, specTeamMatch, pyContains_iff]

theorem filter_not_key_nil (l : List MatchRow) (k : Int) :
    (l.filter (fun x => !(x.match_id == k))).filter
      (fun x => x.match_id == k) = [] := by
  induction l with
  | nil => rfl
  | cons a t ih =>
      by_cases h : a.match_id = k <;>
        simp [List.filter_cons, h, ih]

theorem filter_key_insertOrReplace (l : List MatchRow) (r : MatchRow) :
    ((l.filter (fun x => !(x.match_id == r.match_id))) ++ [r]).filter
      (fun x => x.match_id == r.match_id) = [r] := by
  rw [List.filter_append, filter_not_key_nil]
  simp [List.filter_cons]

theorem extract_convertCollegeGame (sportType now : String) (year : Int)
    (g : RawCollegeGame) :
    extractMatchRow (convertCollegeGame sportType year g) sportType now =
      Except.ok (collegeRow sportType now year g) := rfl

/-! ## Claim theorems -/

/-- C1: the Context Assembler (`get_full_match_context`, spec-modelled as
it is absent from the sources) always returns a consolidated bundle with
all three top-level sub-objects present; for an event with no statistics
row and no odds row the stats and odds sub-objects are empty, and a
missing event row leaves the details sub-object empty — never an error. -/
theorem claim_C1_assemble_graceful (db : DB) (eid : Int)
    (hs : db.match_stats.filter (fun s => s.match_id == eid) = [])
    (ho : db.odds.filter (fun o => o.match_id == eid) = []) :
    (get_full_match_context db eid).home_team_stats = none ∧
    (get_full_match_context db eid).latest_odds = none ∧
    (db.matchRows.find? (fun r => r.match_id == eid) = none →
      (get_full_match_context db eid).match_details = none) := by
  refine ⟨?_, ?_, ?_⟩
  · unfold get_full_match_context
    cases hmd : db.matchRows.find? (fun r => r.match_id == eid) with
    | none => simp [hmd]
    | some r =>
        simp only [hmd, Option.some_bind]
        rw [List.find?_eq_none]
        intro s hsmem
        have hns := (List.filter_eq_nil_iff.mp hs) s hsmem
        simp only [Bool.and_eq_true, not_and]
        intro hmid
        exact absurd hmid hns
  · unfold get_full_match_context
    rw [ho]
    rfl
  · intro hmd
    unfold get_full_match_context
    simp [hmd]

/-- C1 witness: an empty store and event id 5 satisfy the hypotheses, and
the bundle degrades to empty sub-objects. -/
theorem claim_C1_witness :
    (get_full_match_context DB.empty 5).home_team_stats = none ∧
    (get_full_match_context DB.empty 5).latest_odds = none ∧
    (DB.empty.matchRows.find? (fun r => r.match_id == 5) = none →
      (get_full_match_context DB.empty 5).match_details = none) :=
  claim_C1_assemble_graceful DB.empty 5 rfl rfl

/-- C2 counterexample: a run that reaches retrieval with one event
(fixture 42) terminates `ok` carrying that event, yet the store comes back
exactly as it went in — the empty store, with no row for event 42: the
pipeline's `run` upserts nothing. -/
theorem claim_C2_counterexample :
    run "college games 2024" (some intentNoTeam) Json.null [evCollege]
        DB.empty =
      (Envelope.ok "college games 2024" intentNoTeam [evCollege] Json.null
        "Found 1 matches. Select one for detailed analysis.", DB.empty) ∧
    DB.empty.matchRows.filter (fun r => r.match_id == 42) = [] :=
  ⟨rfl, rfl⟩

/-- C2 amended: `run` performs no Canonical Store writes at all — every
branch returns the store unchanged; persistence of retrieved events
happens outside the pipeline entry point. -/
theorem claim_C2_run_performs_no_store_writes (userQuery : String)
    (parsed : Option Intent) (oddsData : Json)
    (fetched : List FetchedMatch) (db : DB) :
    (run userQuery parsed oddsData fetched db).2 = db := by
  cases parsed with
  | none => rfl
  | some s =>
      unfold run
      by_cases h1 : fetched.isEmpty <;>
        by_cases h2 : (runFiltered s fetched).isEmpty <;>
          simp [h1, h2]

/-- C3: evaluating `get_recent_matches` at a store whose only row has
status `completed` but home team 10 and away team 20 shows the row is
returned for team 99, which is involved in neither side: in the WHERE
clause `AND` binds tighter than `OR`, so the `completed` disjunct escapes
the team restriction. -/
theorem claim_C3_team_restriction_violated :
    get_recent_matches dbLeak 99 5 = [rowLeak] ∧
    rowLeak.home_team_id ≠ 99 ∧ rowLeak.away_team_id ≠ 99 := by
  refine ⟨rfl, ?_, ?_⟩ <;> decide

/-- C4 counterexample: a college game the provider marks completed
normalizes to the status string `completed`, which is not one of the four
claimed enum values `scheduled`, `in_progress`, `finished`, `cancelled`. -/
theorem claim_C4_counterexample :
    collegeStatus gameCompleted = "completed" ∧
    ("completed" ∈ (["scheduled", "in_progress", "finished", "cancelled"] :
      List String) → False) := by
  refine ⟨rfl, ?_⟩
  decide

/-- C4 amended: college ingestion maps a game's status into the closed
two-value set of strings `completed` / `scheduled`, with `scheduled` for
any record whose completed flag is not true, and `store_match` stores that
converter status string verbatim in the row — there is no four-value enum
mapping. -/
theorem claim_C4_college_status_closure (g : RawCollegeGame)
    (sportType now : String) (year : Int) (row : MatchRow)
    (hok : extractMatchRow (convertCollegeGame sportType year g) sportType
      now = Except.ok row) :
    (collegeStatus g = "completed" ∨ collegeStatus g = "scheduled") ∧
    (¬ completedTruthy g = true → collegeStatus g = "scheduled") ∧
    row.status = collegeStatus g := by
  refine ⟨?_, ?_, ?_⟩
  · unfold collegeStatus
    by_cases h : completedTruthy g <;> simp [h]
  · intro h
    unfold collegeStatus
    simp [h]
  · rw [extract_convertCollegeGame] at hok
    injection hok with h
    rw [← h]
    rfl

/-- C4 witness: the completed college game record, converted and stored,
yields the status `completed` from the two-value set. -/
theorem claim_C4_witness :
    (collegeStatus gameCompleted = "completed" ∨
      collegeStatus gameCompleted = "scheduled") ∧
    (¬ completedTruthy gameCompleted = true →
      collegeStatus gameCompleted = "scheduled") ∧
    (collegeRow "college_football" "t0" 2024 gameCompleted).status =
      collegeStatus gameCompleted :=
  claim_C4_college_status_closure gameCompleted "college_football" "t0"
    2024 (collegeRow "college_football" "t0" 2024 gameCompleted) rfl

/-- C5: writing the same team's statistics for the same event twice leaves
two rows for the pair `(event 1, team 7)`, not one: the `match_stats`
table's only uniqueness constraint is the AUTOINCREMENT `stat_id`, so the
`INSERT OR REPLACE` never conflicts and always appends. -/
theorem claim_C5_duplicate_stats_rows :
    ((store_stats (store_stats DB.empty 1 [tsArsenal] "t1") 1 [tsArsenal]
      "t2").match_stats.filter
        (fun r => r.match_id == 1 && r.team_id == 7)).length = 2 := by
  decide

/-- C6: event upsert is idempotent — storing two well-formed records with
the same `match_id` in sequence leaves exactly one row for that id, every
field of which equals the second ingestion's values. -/
theorem claim_C6_upsert_idempotent (db : DB) (raw1 raw2 : RawMatch)
    (s1 s2 n1 n2 : String) (row1 row2 : MatchRow)
    (h1 : extractMatchRow raw1 s1 n1 = Except.ok row1)
    (h2 : extractMatchRow raw2 s2 n2 = Except.ok row2)
    (hid : row1.match_id = row2.match_id) :
    ((store_match (store_match db raw1 s1 n1).db raw2 s2 n2).db.matchRows.filter
      (fun r => r.match_id == row1.match_id)) = [row2] := by
  rw [hid]
  simp only [store_match, h1, h2, insertOrReplaceMatch]
  exact filter_key_insertOrReplace _ row2

/-- C6 witness: ingesting fixture 7 twice (scores updated the second time)
leaves exactly the second row. -/
theorem claim_C6_witness :
    ((store_match (store_match DB.empty rawWellFormed "football" "t1").db
      rawWellFormed2 "football" "t2").db.matchRows.filter
        (fun r => r.match_id == rowFirst.match_id)) = [rowSecond] :=
  claim_C6_upsert_idempotent DB.empty rawWellFormed rawWellFormed2
    "football" "football" "t1" "t2" rowFirst rowSecond rfl rfl rfl

/-- C7 counterexample: storing a malformed record (missing `'fixture'`
key) rolls back, logs the `KeyError` with the payload, and returns
normally — no exception reaches the caller, refuting the claim that the
failure is surfaced rather than absorbed inside the store operation. -/
theorem claim_C7_counterexample :
    (store_match DB.empty rawMalformed "football" "t0").raised = false ∧
    (store_match DB.empty rawMalformed "football" "t0").db = DB.empty ∧
    (store_match DB.empty rawMalformed "football" "t0").logged =
      some "KeyError: fixture" :=
  ⟨rfl, rfl, rfl⟩

/-- C7 amended: on a failed upsert the write is rolled back (the store is
unchanged) and the error is logged together with the failing payload, but
the exception is caught inside `store_match`: the call returns normally
and never propagates the failure to the caller. -/
theorem claim_C7_swallow_and_rollback (db : DB) (raw : RawMatch)
    (sportType now : String) :
    (store_match db raw sportType now).raised = false ∧
    ∀ e, extractMatchRow raw sportType now = Except.error e →
      (store_match db raw sportType now).db = db ∧
      (store_match db raw sportType now).logged = some e := by
  constructor
  · unfold store_match
    cases h : extractMatchRow raw sportType now <;> simp
  · intro e he
    simp [store_match, he]

/-- C7 witness: the malformed record exercises the error branch. -/
theorem claim_C7_witness :
    (store_match DB.empty rawMalformed "football" "t0").raised = false ∧
    ((store_match DB.empty rawMalformed "football" "t0").db = DB.empty ∧
      (store_match DB.empty rawMalformed "football" "t0").logged =
        some "KeyError: fixture") :=
  ⟨(claim_C7_swallow_and_rollback DB.empty rawMalformed "football" "t0").1,
    (claim_C7_swallow_and_rollback DB.empty rawMalformed "football"
      "t0").2 "KeyError: fixture" rfl⟩

/-- C8: when the intent carries a (non-falsy) team name the filter keeps
exactly the events whose home or away name contains it as a
case-insensitive substring; with no team name all events are kept; the
spec's Liverpool/Arsenal vs Chelsea/Everton example returns exactly the
first event; and an empty post-filter result makes `run` return the
terminal `no_matches` envelope. -/
theorem claim_C8_filter_correctness (s : Intent)
    (fetched : List FetchedMatch) (t userQuery : String) (odds : Json)
    (db : DB) :
    (s.team_name = some t → t ≠ "" →
      runFiltered s fetched =
        fetched.filter (fun m => decide (specTeamMatch t m))) ∧
    (s.team_name = none → runFiltered s fetched = fetched) ∧
    runFiltered intentLiv [evLiv, evChe] = [evLiv] ∧
    (s.team_name = some t → fetched ≠ [] → runFiltered s fetched = [] →
      (run userQuery (some s) odds fetched db).1 =
        Envelope.no_matches s odds
          ("No matches found involving " ++ sq ++ t ++ sq ++
            " after filtering.")) := by
  refine ⟨?_, ?_, ?_, ?_⟩
  · intro ht htne
    unfold runFiltered
    rw [ht]
    have htarget : targetOf (some t) = some (pyLower t) := by
      simp [targetOf, htne]
    rw [htarget]
    exact List.filter_congr (fun m _ => keepMatch_eq_specTeamMatch t m)
  · intro ht
    unfold runFiltered
    rw [ht]
    simp [targetOf, keepMatch, List.filter_true]
  · decide
  · intro ht hne hfil
    unfold run
    have h1 : fetched.isEmpty = false := by
      simp [List.isEmpty_iff, hne]
    simp [h1, hfil, ht, pyShowOpt]

/-- C8 witness: the Liverpool example matches the spec predicate, an
intent without a team keeps everything, and an empty post-filter result
yields `no_matches`. -/
theorem claim_C8_witness :
    runFiltered intentLiv [evLiv, evChe] =
      [evLiv, evChe].filter (fun m => decide (specTeamMatch "liverpool" m)) ∧
    runFiltered intentNoTeam [evLiv] = [evLiv] ∧
    (run "q" (some intentLiv) Json.null [evChe] DB.empty).1 =
      Envelope.no_matches intentLiv Json.null
        ("No matches found involving " ++ sq ++ "liverpool" ++ sq ++
          " after filtering.") :=
  ⟨(claim_C8_filter_correctness intentLiv [evLiv, evChe] "liverpool" "q"
      Json.null DB.empty).1 rfl (by decide),
    (claim_C8_filter_correctness intentNoTeam [evLiv] "x" "q" Json.null
      DB.empty).2.1 rfl,
    (claim_C8_filter_correctness intentLiv [evChe] "liverpool" "q"
      Json.null DB.empty).2.2.2 rfl (by decide) (by decide)⟩

/-- C9: each reasoning capability substitutes its documented default when
the reply cannot be parsed — prediction the 0.40/0.30/0.30 probability
triple, verification Low edge with Medium confidence, ethics status pass —
and passes a parsed reply through unchanged, never propagating the
failure. -/
theorem claim_C9_capability_defaults :
    predictionInvoke none = Json.obj
      [("home_win_prob", Json.num (40/100)),
       ("draw_prob", Json.num (30/100)),
       ("away_win_prob", Json.num (30/100))] ∧
    verificationInvoke none = Json.obj
      [("value_edge", Json.str "Low"),
       ("confidence", Json.str "Medium")] ∧
    ethicsInvoke none = Json.obj [("status", Json.str "pass")] ∧
    (∀ j, predictionInvoke (some j) = j) ∧
    (∀ j, verificationInvoke (some j) = j) ∧
    (∀ j, ethicsInvoke (some j) = j) :=
  ⟨rfl, rfl, rfl, fun _ => rfl, fun _ => rfl, fun _ => rfl⟩

/-- C10 counterexample: the reply `" safe "` is not exactly one of the six
action strings, yet `invoke` returns `"safe"` (the stripped form), not
`"neutral"` — the replacement applies to the stripped reply, not the raw
one. -/
theorem claim_C10_counterexample :
    behaviorInvoke " safe " = "safe" ∧
    " safe " ∉ allowedActions ∧
    (" safe " : String) ≠ "safe" ∧ ("safe" : String) ≠ "neutral" := by
  refine ⟨?_, ?_, ?_, ?_⟩ <;> decide

/-- C10 amended: `invoke` always returns one of the six allowed actions,
and any reply whose whitespace-stripped form is not exactly one of the six
strings is replaced by `neutral`. -/
theorem claim_C10_action_closed_set (reply : String) :
    behaviorInvoke reply ∈ allowedActions ∧
    (pyStrip reply ∉ allowedActions → behaviorInvoke reply = "neutral") := by
  by_cases h : pyStrip reply ∈ allowedActions
  · refine ⟨?_, fun hn => absurd h hn⟩
    simp [behaviorInvoke, h]
  · refine ⟨?_, fun _ => ?_⟩ <;> simp [behaviorInvoke, h] <;> decide

/-- C10 witness: an off-script reply collapses to `neutral`, which is in
the allowed set. -/
theorem claim_C10_witness :
    behaviorInvoke "bet everything" ∈ allowedActions ∧
    behaviorInvoke "bet everything" = "neutral" :=
  ⟨(claim_C10_action_closed_set "bet everything").1,
    (claim_C10_action_closed_set "bet everything").2 (by decide)⟩

end BettingEdge
